import Mathlib

/-! Formalisation of palettegen (src/main.py): extraction of an 11-entry color
palette from k-means centroids, saturation tweaking through an HLS round trip
(CPython colorsys), and the two palette serializers, together with the CLI
control flow. Python floats are modelled by exact rationals; Python dicts by
association lists in insertion order. -/

namespace Palettegen

/-- An RGB color with rational channels. -/
abbrev Rgb : Type := ℚ × ℚ × ℚ

/-- Luminance key used to sort centroids, src/main.py lines 25-26. -/
def luminance (c : Rgb) : ℚ :=
  0.2126 * c.1 + 0.7152 * c.2.1 + 0.0722 * c.2.2

/-- Comparison used by the sort on line 28: ascending luminance. -/
def lumLE (a b : Rgb) : Prop := luminance a ≤ luminance b

instance : DecidableRel lumLE := fun a b =>
  inferInstanceAs (Decidable (luminance a ≤ luminance b))

instance : IsTotal Rgb lumLE := ⟨fun a b => le_total (luminance a) (luminance b)⟩

instance : IsTrans Rgb lumLE := ⟨fun _ _ _ hab hbc => le_trans hab hbc⟩

/-- Python sorted with key luminance (line 28): a stable sort by the luminance
key; stable insertion sort produces the same list as any stable sort. -/
def sortByLum (l : List Rgb) : List Rgb := List.insertionSort lumLE l

/-- CPython colorsys helper _v, with ONE_SIXTH, ONE_THIRD and TWO_THIRD taken
exactly; Python's modulo 1.0 on a float is Int.fract. -/
def vHLS (m1 m2 hue : ℚ) : ℚ :=
  let hue' := Int.fract hue
  if hue' < 1 / 6 then m1 + (m2 - m1) * hue' * 6
  else if hue' < 1 / 2 then m2
  else if hue' < 2 / 3 then m1 + (m2 - m1) * (2 / 3 - hue') * 6
  else m1

/-- CPython colorsys.rgb_to_hls. -/
def rgb_to_hls (r g b : ℚ) : ℚ × ℚ × ℚ :=
  let maxc := max r (max g b)
  let minc := min r (min g b)
  let sumc := maxc + minc
  let rangec := maxc - minc
  let l := sumc / 2
  if minc = maxc then (0, l, 0)
  else
    let s := if l ≤ 1 / 2 then rangec / sumc else rangec / (2 - sumc)
    let rc := (maxc - r) / rangec
    let gc := (maxc - g) / rangec
    let bc := (maxc - b) / rangec
    let h0 := if r = maxc then bc - gc else if g = maxc then 2 + rc - bc else 4 + gc - rc
    (Int.fract (h0 / 6), l, s)

/-- CPython colorsys.hls_to_rgb. -/
def hls_to_rgb (h l s : ℚ) : ℚ × ℚ × ℚ :=
  if s = 0 then (l, l, l)
  else
    let m2 := if l ≤ 1 / 2 then l * (1 + s) else l + s - l * s
    let m1 := 2 * l - m2
    (vHLS m1 m2 (h + 1 / 3), vHLS m1 m2 h, vHLS m1 m2 (h - 1 / 3))

/-- Python int() applied to a float: truncation toward zero. -/
def pyInt (q : ℚ) : ℤ := if 0 ≤ q then ⌊q⌋ else ⌈q⌉

/-- Lowercase hex digit character for a value below 16, as produced by Python
format code x. -/
def hexDigit (n : ℕ) : Char :=
  if n < 10 then Char.ofNat (48 + n) else Char.ofNat (87 + n)

/-- Two-digit lowercase hex rendering; agrees with Python format field 02x on
0..255, and every use below is proved to stay in that range. -/
def hexByte (n : ℕ) : String := ⟨[hexDigit (n / 16), hexDigit (n % 16)]⟩

/-- The hash-prefixed format string of src/main.py lines 40-42 and 54. -/
def hexColor (r g b : ℕ) : String := "#" ++ hexByte r ++ hexByte g ++ hexByte b

/-- Hex-encode a centroid: Python int() per channel, then two-digit lowercase
hex (lines 40-42); channels are nonnegative in every run reaching this code. -/
def hexOfCentroid (c : Rgb) : String :=
  hexColor (pyInt c.1).toNat (pyInt c.2.1).toNat (pyInt c.2.2).toNat

/-- src/main.py lines 31-36. -/
def tweak_saturation (rgb : Rgb) (factor : ℚ) : ℤ × ℤ × ℤ :=
  let r := rgb.1 / 255
  let g := rgb.2.1 / 255
  let b := rgb.2.2 / 255
  let hls := rgb_to_hls r g b
  let s := min (max (hls.2.2 * factor) 0) 1
  let rgb' := hls_to_rgb hls.1 hls.2.1 s
  (pyInt (rgb'.1 * 255), pyInt (rgb'.2.1 * 255), pyInt (rgb'.2.2 * 255))

/-- Shade triple hex-encoded by the format string on line 54. -/
def hexOfShade (t : ℤ × ℤ × ℤ) : String := hexColor t.1.toNat t.2.1.toNat t.2.2.toNat

/-- The factor schedule on line 48. -/
def schedule : List ℚ := [0.5, 0.75, 1, 1.25, 1.5, 1.75, 2, 2.5]

/-- Default used when indexing a too-short centroid list; never reached when
five centroids exist. -/
def rgbZero : Rgb := (0, 0, 0)

/-- src/main.py lines 24-56, parameterised by the centroid list that the
external k-means clusterer returned on line 22. Python dict insertion order is
modelled by an association list; negative indices -1 and -2 on the five-element
centers list are length - 1 and length - 2. -/
def extract_colors (centers0 : List Rgb) : List (String × String) :=
  let centers := sortByLum centers0
  let base := [
    ("background", hexOfCentroid (centers.getD 0 rgbZero)),
    ("foreground", hexOfCentroid (centers.getD (centers.length - 1) rgbZero)),
    ("foreground-alt", hexOfCentroid (centers.getD (centers.length - 2) rgbZero))]
  let shades := schedule.map (tweak_saturation (centers.getD 1 rgbZero))
  base ++ shades.enum.map (fun p => ("shade" ++ toString (8 - p.1), hexOfShade p.2))

/-- Modelled from the external clusterer's contract (scikit-learn KMeans.fit,
called on line 22 with n_clusters = 5): fitting raises only when the number of
samples is smaller than n_clusters; the number of DISTINCT samples is not
checked, and duplicate points merely yield duplicate centroids together with a
convergence warning. -/
def kmeans_fit_check (pixels : List Rgb) (n_clusters : ℕ) : Except String Unit :=
  if pixels.length < n_clusters then
    .error "n_samples should be greater than or equal to n_clusters"
  else .ok ()

/-- Number of distinct pixel colors in a pixel sequence. -/
def distinctColors (pixels : List Rgb) : ℕ := pixels.dedup.length

/-- Outcome of a serializer call: returned silently without writing, wrote a
file, or raised a Python KeyError before any file was opened. -/
inductive SaveResult where
  | skipped : SaveResult
  | wrote (path content : String) : SaveResult
  | keyError (key : String) : SaveResult
  deriving DecidableEq

/-- Palette keys subscripted by save_palette_to_ini, in source evaluation order
(lines 69-78). -/
def requiredIniKeys : List String :=
  ["background", "foreground", "foreground-alt",
   "shade1", "shade2", "shade3", "shade4", "shade5", "shade6", "shade7", "shade8"]

/-- Python dict subscript: the value, or a KeyError carrying the missing key. -/
def req (palette : List (String × String)) (k : String) : Except String String :=
  match palette.lookup k with
  | some v => .ok v
  | none => .error k

/-- Modelled configparser rendering of the section built on lines 66-78: keys in
insertion order, allow_no_value comment entries printed bare, one trailing blank
line. -/
def ini_content (bg fg fga s1 s2 s3 s4 s5 s6 s7 s8 : String) : String :=
  "[color]\n; main colors\nbackground = " ++ bg ++ "\nforeground = " ++ fg ++
    "\nforeground-alt = " ++ fga ++ "\n\n; shades\nshade1 = " ++ s1 ++
    "\nshade2 = " ++ s2 ++ "\nshade3 = " ++ s3 ++ "\nshade4 = " ++ s4 ++
    "\nshade5 = " ++ s5 ++ "\nshade6 = " ++ s6 ++ "\nshade7 = " ++ s7 ++
    "\nshade8 = " ++ s8 ++ "\n\n"

/-- src/main.py lines 59-83; every palette subscript happens while building the
config, before the output file is opened on line 80. The source's default
output path argument is colors.ini. -/
def save_palette_to_ini (palette : List (String × String)) (output_path : String) :
    SaveResult :=
  if palette = [] then .skipped
  else
    match req palette "background" with
    | .error k => .keyError k
    | .ok bg =>
      match req palette "foreground" with
      | .error k => .keyError k
      | .ok fg =>
        match req palette "foreground-alt" with
        | .error k => .keyError k
        | .ok fga =>
          match req palette "shade1" with
          | .error k => .keyError k
          | .ok s1 =>
            match req palette "shade2" with
            | .error k => .keyError k
            | .ok s2 =>
              match req palette "shade3" with
              | .error k => .keyError k
              | .ok s3 =>
                match req palette "shade4" with
                | .error k => .keyError k
                | .ok s4 =>
                  match req palette "shade5" with
                  | .error k => .keyError k
                  | .ok s5 =>
                    match req palette "shade6" with
                    | .error k => .keyError k
                    | .ok s6 =>
                      match req palette "shade7" with
                      | .error k => .keyError k
                      | .ok s7 =>
                        match req palette "shade8" with
                        | .error k => .keyError k
                        | .ok s8 =>
                          .wrote output_path
                            (ini_content bg fg fga s1 s2 s3 s4 s5 s6 s7 s8)

/-- Fixed-shape theme markup assembled on lines 93-101. -/
def rasi_content (bg bg1 bg2 bg3 bg4 fg : String) : String :=
  "/* colors */\n\n* \x7b\n  al:    #00000000;\n  bg:    " ++ bg ++ "FF;\n  bg1:   " ++
    bg1 ++ "FF;\n  bg2:   " ++ bg2 ++ "FF;\n  bg3:   " ++ bg3 ++ "FF;\n  bg4:   " ++
    bg4 ++ "FF;\n  fg:    " ++ fg ++ "FF;\n\x7d\n"

/-- src/main.py lines 86-106: background and foreground are subscripted in
f-string evaluation order (background first, foreground last, may raise
KeyError), while the four shades use dict.get with default value the black hex
string; the source's default output path argument is colors.rasi. -/
def save_palette_to_rasi (palette : List (String × String)) (output_path : String) :
    SaveResult :=
  if palette = [] then .skipped
  else
    match palette.lookup "background" with
    | none => .keyError "background"
    | some bg =>
      let bg1 := (palette.lookup "shade1").getD "#000000"
      let bg2 := (palette.lookup "shade2").getD "#000000"
      let bg3 := (palette.lookup "shade3").getD "#000000"
      let bg4 := (palette.lookup "shade4").getD "#000000"
      match palette.lookup "foreground" with
      | none => .keyError "foreground"
      | some fg => .wrote output_path (rasi_content bg bg1 bg2 bg3 bg4 fg)

/-- Observable effects of one CLI run. -/
structure CliResult where
  exitCode : Option ℕ
  printed : List String
  dirCreated : Option String
  filesWritten : List (String × String)
  deriving DecidableEq

/-- POSIX os.path.join for a relative second component. -/
def os_path_join (d f : String) : String :=
  if d = "" then f else if d.endsWith "/" then d ++ f else d ++ "/" ++ f

/-- Files written by a serializer call. -/
def writesOf : SaveResult → List (String × String)
  | .wrote p c => [(p, c)]
  | _ => []

/-- Message printed by save_palette_to_ini on its write path (line 83). -/
def iniMsg : SaveResult → List String
  | .wrote p _ => ["Palette saved to " ++ p]
  | _ => []

/-- Message printed by save_palette_to_rasi on its write path (line 106). -/
def rasiMsg : SaveResult → List String
  | .wrote p _ => ["RASI palette saved to " ++ p]
  | _ => []

/-- src/main.py lines 109-138. The existence check of the image path is the
boolean pathExists; palette extraction, which goes through the external decoder
and clusterer, is a parameter invoked only on the branch reaching line 134. -/
def main (pathExists : Bool) (image_path output_dir : String)
    (extractor : String → List (String × String)) : CliResult :=
  if pathExists = false then
    { exitCode := some 1
      printed := ["Error: Image file '" ++ image_path ++ "' not found"]
      dirCreated := none
      filesWritten := [] }
  else
    let ini_path := os_path_join output_dir "out.ini"
    let rasi_path := os_path_join output_dir "out.rasi"
    let palette := extractor image_path
    if palette = [] then
      { exitCode := none, printed := [], dirCreated := some output_dir, filesWritten := [] }
    else
      let r1 := save_palette_to_ini palette ini_path
      let r2 := save_palette_to_rasi palette rasi_path
      { exitCode := none
        printed := iniMsg r1 ++ rasiMsg r2
        dirCreated := some output_dir
        filesWritten := writesOf r1 ++ writesOf r2 }

/-- Channel-wise membership of a color in the byte range. -/
def inRange (c : Rgb) : Prop :=
  0 ≤ c.1 ∧ c.1 ≤ 255 ∧ 0 ≤ c.2.1 ∧ c.2.1 ≤ 255 ∧ 0 ≤ c.2.2 ∧ c.2.2 ≤ 255

/-- Lowercase hexadecimal digit characters. -/
def isLowerHexDigit (c : Char) : Bool :=
  ('0' ≤ c && c ≤ '9') || ('a' ≤ c && c ≤ 'f')

/-- A hash sign followed by exactly six lowercase hex digits. -/
def isHexColorString (s : String) : Bool :=
  match s.data with
  | '#' :: rest => rest.length == 6 && rest.all isLowerHexDigit
  | _ => false

/-- The five singleton-cluster centroids of the synthetic five-pixel image from
the spec's testable-properties section. -/
def specCentroids : List Rgb :=
  [(0, 0, 0), (255, 255, 255), (128, 128, 128), (10, 10, 10), (245, 245, 245)]

/-- A centroid list whose darkest centroid has fractional channels, as k-means
means generally do. -/
def fracCentroids : List Rgb :=
  [(0.9, 0.9, 0.9), (255, 255, 255), (128, 128, 128), (10, 10, 10), (245, 245, 245)]

/-- The single color of a solid test image. -/
def solidColor : Rgb := (5, 5, 5)

/-- The pixel sequence of a solid-color 4 by 4 image. -/
def solidPixels : List Rgb := List.replicate 16 solidColor

/-- A nonempty palette that carries only the two role keys the theme-markup
writer subscripts directly. -/
def rolesOnlyPalette : List (String × String) :=
  [("background", "#111111"), ("foreground", "#eeeeee")]

/-- Interpolation bounds for the colorsys helper: its value always lies between
m1 and m2. -/
lemma vHLS_mem (m1 m2 hue : ℚ) (h0 : 0 ≤ m1) (h12 : m1 ≤ m2) (h1 : m2 ≤ 1) :
    0 ≤ vHLS m1 m2 hue ∧ vHLS m1 m2 hue ≤ 1 := by
  have hf0 : 0 ≤ Int.fract hue := Int.fract_nonneg hue
  have hf1 : Int.fract hue < 1 := Int.fract_lt_one hue
  simp only [vHLS]
  split_ifs with ha hb hc
  · constructor <;> nlinarith
  · constructor <;> linarith
  · constructor <;> nlinarith
  · constructor <;> linarith

/-- The HLS-to-RGB conversion maps unit-interval lightness and saturation into
the unit cube, for any hue. -/
lemma hls_to_rgb_mem (h l s : ℚ) (hl0 : 0 ≤ l) (hl1 : l ≤ 1)
    (hs0 : 0 ≤ s) (hs1 : s ≤ 1) :
    (0 ≤ (hls_to_rgb h l s).1 ∧ (hls_to_rgb h l s).1 ≤ 1) ∧
    (0 ≤ (hls_to_rgb h l s).2.1 ∧ (hls_to_rgb h l s).2.1 ≤ 1) ∧
    (0 ≤ (hls_to_rgb h l s).2.2 ∧ (hls_to_rgb h l s).2.2 ≤ 1) := by
  simp only [hls_to_rgb]
  split_ifs with hs hl
  · exact ⟨⟨hl0, hl1⟩, ⟨hl0, hl1⟩, ⟨hl0, hl1⟩⟩
  · have hm2a : 0 ≤ l * (1 + s) := by nlinarith
    have hm2b : l * (1 + s) ≤ 1 := by nlinarith
    have hm1a : 0 ≤ 2 * l - l * (1 + s) := by nlinarith
    have hm12 : 2 * l - l * (1 + s) ≤ l * (1 + s) := by nlinarith
    exact ⟨vHLS_mem _ _ _ hm1a hm12 hm2b, vHLS_mem _ _ _ hm1a hm12 hm2b,
      vHLS_mem _ _ _ hm1a hm12 hm2b⟩
  · have hm2a : 0 ≤ l + s - l * s := by nlinarith
    have hm2b : l + s - l * s ≤ 1 := by nlinarith
    have hm1a : 0 ≤ 2 * l - (l + s - l * s) := by nlinarith
    have hm12 : 2 * l - (l + s - l * s) ≤ l + s - l * s := by nlinarith
    exact ⟨vHLS_mem _ _ _ hm1a hm12 hm2b, vHLS_mem _ _ _ hm1a hm12 hm2b,
      vHLS_mem _ _ _ hm1a hm12 hm2b⟩

/-- The lightness returned by the RGB-to-HLS conversion of unit-interval
channels is in the unit interval. -/
lemma rgb_to_hls_l_mem (r g b : ℚ) (hr0 : 0 ≤ r) (hr1 : r ≤ 1)
    (hg0 : 0 ≤ g) (hg1 : g ≤ 1) (hb0 : 0 ≤ b) (hb1 : b ≤ 1) :
    0 ≤ (rgb_to_hls r g b).2.1 ∧ (rgb_to_hls r g b).2.1 ≤ 1 := by
  have hmax1 : max r (max g b) ≤ 1 := max_le hr1 (max_le hg1 hb1)
  have hmax0 : 0 ≤ max r (max g b) := le_trans hr0 (le_max_left _ _)
  have hmin0 : 0 ≤ min r (min g b) := le_min hr0 (le_min hg0 hb0)
  have hmin1 : min r (min g b) ≤ 1 := le_trans (min_le_left _ _) hr1
  simp only [rgb_to_hls]
  split_ifs <;> constructor <;> simp only [] <;> linarith

/-- Python int() of a rational in the byte range is an integer in the byte
range (truncation equals floor on nonnegative input). -/
lemma pyInt_bounds (q : ℚ) (h0 : 0 ≤ q) (h1 : q ≤ 255) :
    0 ≤ pyInt q ∧ pyInt q ≤ 255 := by
  simp only [pyInt, if_pos h0]
  refine ⟨Int.floor_nonneg.mpr h0, ?_⟩
  have h2 : (⌊q⌋ : ℤ) ≤ ⌊(255 : ℚ)⌋ := Int.floor_le_floor h1
  simpa using h2

/-- Unfolding of tweak_saturation into its three channel expressions. -/
lemma tweak_saturation_eq (c : Rgb) (factor : ℚ) :
    tweak_saturation c factor =
      (pyInt ((hls_to_rgb (rgb_to_hls (c.1 / 255) (c.2.1 / 255) (c.2.2 / 255)).1
          (rgb_to_hls (c.1 / 255) (c.2.1 / 255) (c.2.2 / 255)).2.1
          (min (max ((rgb_to_hls (c.1 / 255) (c.2.1 / 255) (c.2.2 / 255)).2.2 * factor) 0)
            1)).1 * 255),
       pyInt ((hls_to_rgb (rgb_to_hls (c.1 / 255) (c.2.1 / 255) (c.2.2 / 255)).1
          (rgb_to_hls (c.1 / 255) (c.2.1 / 255) (c.2.2 / 255)).2.1
          (min (max ((rgb_to_hls (c.1 / 255) (c.2.1 / 255) (c.2.2 / 255)).2.2 * factor) 0)
            1)).2.1 * 255),
       pyInt ((hls_to_rgb (rgb_to_hls (c.1 / 255) (c.2.1 / 255) (c.2.2 / 255)).1
          (rgb_to_hls (c.1 / 255) (c.2.1 / 255) (c.2.2 / 255)).2.1
          (min (max ((rgb_to_hls (c.1 / 255) (c.2.1 / 255) (c.2.2 / 255)).2.2 * factor) 0)
            1)).2.2 * 255)) := rfl

/-- Channel bounds through the whole saturation tweak: byte-range input gives
byte-range integer output, for any factor, because the saturation is clamped
into the unit interval before the HLS round trip. -/
lemma tweak_saturation_mem (c : Rgb) (factor : ℚ) (hc : inRange c) :
    (0 ≤ (tweak_saturation c factor).1 ∧ (tweak_saturation c factor).1 ≤ 255) ∧
    (0 ≤ (tweak_saturation c factor).2.1 ∧ (tweak_saturation c factor).2.1 ≤ 255) ∧
    (0 ≤ (tweak_saturation c factor).2.2 ∧ (tweak_saturation c factor).2.2 ≤ 255) := by
  obtain ⟨h1, h2, h3, h4, h5, h6⟩ := hc
  have hr0 : 0 ≤ c.1 / 255 := div_nonneg h1 (by norm_num)
  have hr1 : c.1 / 255 ≤ 1 := (div_le_one (by norm_num)).mpr h2
  have hg0 : 0 ≤ c.2.1 / 255 := div_nonneg h3 (by norm_num)
  have hg1 : c.2.1 / 255 ≤ 1 := (div_le_one (by norm_num)).mpr h4
  have hb0 : 0 ≤ c.2.2 / 255 := div_nonneg h5 (by norm_num)
  have hb1 : c.2.2 / 255 ≤ 1 := (div_le_one (by norm_num)).mpr h6
  have hl := rgb_to_hls_l_mem _ _ _ hr0 hr1 hg0 hg1 hb0 hb1
  have hs0 : 0 ≤ min (max ((rgb_to_hls (c.1 / 255) (c.2.1 / 255) (c.2.2 / 255)).2.2 * factor) 0) 1 :=
    le_min (le_max_right _ _) zero_le_one
  have hs1 : min (max ((rgb_to_hls (c.1 / 255) (c.2.1 / 255) (c.2.2 / 255)).2.2 * factor) 0) 1 ≤ 1 :=
    min_le_right _ _
  have hrgb := hls_to_rgb_mem (rgb_to_hls (c.1 / 255) (c.2.1 / 255) (c.2.2 / 255)).1
    (rgb_to_hls (c.1 / 255) (c.2.1 / 255) (c.2.2 / 255)).2.1 _ hl.1 hl.2 hs0 hs1
  rw [tweak_saturation_eq]
  exact ⟨pyInt_bounds _ (by linarith [hrgb.1.1]) (by linarith [hrgb.1.2]),
    pyInt_bounds _ (by linarith [hrgb.2.1.1]) (by linarith [hrgb.2.1.2]),
    pyInt_bounds _ (by linarith [hrgb.2.2.1]) (by linarith [hrgb.2.2.2])⟩

/-- C10: for byte-range input and every schedule factor, tweak_saturation
returns integers in the byte range, even though only the saturation is clamped:
the HLS round trip with clamped saturation cannot leave the unit cube. -/
theorem tweak_saturation_range (c : Rgb) (factor : ℚ) (hc : inRange c)
    (hf : factor ∈ schedule) :
    0 ≤ (tweak_saturation c factor).1 ∧ (tweak_saturation c factor).1 ≤ 255 ∧
    0 ≤ (tweak_saturation c factor).2.1 ∧ (tweak_saturation c factor).2.1 ≤ 255 ∧
    0 ≤ (tweak_saturation c factor).2.2 ∧ (tweak_saturation c factor).2.2 ≤ 255 := by
  obtain ⟨ha, hb, hc'⟩ := tweak_saturation_mem c factor hc
  exact ⟨ha.1, ha.2, hb.1, hb.2, hc'.1, hc'.2⟩

/-- Witness for C10 at the color 10 20 30 and factor 0.5. -/
theorem tweak_saturation_range_witness :
    (inRange ((10 : ℚ), (20 : ℚ), (30 : ℚ)) ∧ (0.5 : ℚ) ∈ schedule) ∧
    (0 ≤ (tweak_saturation ((10 : ℚ), (20 : ℚ), (30 : ℚ)) 0.5).1 ∧
      (tweak_saturation ((10 : ℚ), (20 : ℚ), (30 : ℚ)) 0.5).1 ≤ 255 ∧
      0 ≤ (tweak_saturation ((10 : ℚ), (20 : ℚ), (30 : ℚ)) 0.5).2.1 ∧
      (tweak_saturation ((10 : ℚ), (20 : ℚ), (30 : ℚ)) 0.5).2.1 ≤ 255 ∧
      0 ≤ (tweak_saturation ((10 : ℚ), (20 : ℚ), (30 : ℚ)) 0.5).2.2 ∧
      (tweak_saturation ((10 : ℚ), (20 : ℚ), (30 : ℚ)) 0.5).2.2 ≤ 255) :=
  ⟨⟨by norm_num [inRange], by norm_num [schedule]⟩,
    tweak_saturation_range ((10 : ℚ), (20 : ℚ), (30 : ℚ)) 0.5
      (by norm_num [inRange]) (by norm_num [schedule])⟩

/-- A hex digit of a value below 16 is a lowercase hexadecimal character. -/
lemma isLowerHexDigit_hexDigit (d : ℕ) (hd : d < 16) :
    isLowerHexDigit (hexDigit d) = true := by
  interval_cases d <;> decide

/-- The hash format applied to three bytes yields a hash sign plus six
lowercase hex digits. -/
lemma isHexColorString_hexColor (r g b : ℕ) (hr : r ≤ 255) (hg : g ≤ 255)
    (hb : b ≤ 255) : isHexColorString (hexColor r g b) = true := by
  have h1 : r / 16 < 16 := by omega
  have h2 : r % 16 < 16 := by omega
  have h3 : g / 16 < 16 := by omega
  have h4 : g % 16 < 16 := by omega
  have h5 : b / 16 < 16 := by omega
  have h6 : b % 16 < 16 := by omega
  show ([hexDigit (r / 16), hexDigit (r % 16), hexDigit (g / 16), hexDigit (g % 16),
      hexDigit (b / 16), hexDigit (b % 16)].length == 6 &&
    [hexDigit (r / 16), hexDigit (r % 16), hexDigit (g / 16), hexDigit (g % 16),
      hexDigit (b / 16), hexDigit (b % 16)].all isLowerHexDigit) = true
  simp [List.all_cons, isLowerHexDigit_hexDigit _ h1, isLowerHexDigit_hexDigit _ h2,
    isLowerHexDigit_hexDigit _ h3, isLowerHexDigit_hexDigit _ h4,
    isLowerHexDigit_hexDigit _ h5, isLowerHexDigit_hexDigit _ h6]

/-- Hex encoding of an in-range centroid is well-formed. -/
lemma isHexColorString_hexOfCentroid (c : Rgb) (hc : inRange c) :
    isHexColorString (hexOfCentroid c) = true := by
  obtain ⟨h1, h2, h3, h4, h5, h6⟩ := hc
  have b1 := pyInt_bounds c.1 h1 h2
  have b2 := pyInt_bounds c.2.1 h3 h4
  have b3 := pyInt_bounds c.2.2 h5 h6
  exact isHexColorString_hexColor _ _ _ (by omega) (by omega) (by omega)

/-- Hex encoding of a shade of an in-range base color is well-formed. -/
lemma isHexColorString_hexOfShade (c : Rgb) (f : ℚ) (hc : inRange c) :
    isHexColorString (hexOfShade (tweak_saturation c f)) = true := by
  obtain ⟨b1, b2, b3⟩ := tweak_saturation_mem c f hc
  exact isHexColorString_hexColor _ _ _ (by omega) (by omega) (by omega)

/-- The palette as an explicit 11-entry association list. -/
lemma extract_colors_eq (centers : List Rgb) :
    extract_colors centers =
      [("background", hexOfCentroid ((sortByLum centers).getD 0 rgbZero)),
       ("foreground",
         hexOfCentroid ((sortByLum centers).getD ((sortByLum centers).length - 1) rgbZero)),
       ("foreground-alt",
         hexOfCentroid ((sortByLum centers).getD ((sortByLum centers).length - 2) rgbZero)),
       ("shade8", hexOfShade (tweak_saturation ((sortByLum centers).getD 1 rgbZero) 0.5)),
       ("shade7", hexOfShade (tweak_saturation ((sortByLum centers).getD 1 rgbZero) 0.75)),
       ("shade6", hexOfShade (tweak_saturation ((sortByLum centers).getD 1 rgbZero) 1)),
       ("shade5", hexOfShade (tweak_saturation ((sortByLum centers).getD 1 rgbZero) 1.25)),
       ("shade4", hexOfShade (tweak_saturation ((sortByLum centers).getD 1 rgbZero) 1.5)),
       ("shade3", hexOfShade (tweak_saturation ((sortByLum centers).getD 1 rgbZero) 1.75)),
       ("shade2", hexOfShade (tweak_saturation ((sortByLum centers).getD 1 rgbZero) 2)),
       ("shade1", hexOfShade (tweak_saturation ((sortByLum centers).getD 1 rgbZero) 2.5))] := by
  with_unfolding_all rfl

/-- The sorted centroid list is a permutation of the input, so its members are
members of the input. -/
lemma mem_sortByLum {c : Rgb} {l : List Rgb} (h : c ∈ sortByLum l) : c ∈ l :=
  (List.perm_insertionSort lumLE l).subset h

/-- Sorting preserves length. -/
lemma length_sortByLum (l : List Rgb) : (sortByLum l).length = l.length :=
  (List.perm_insertionSort lumLE l).length_eq

/-- An in-bounds default access hits a member of the list. -/
lemma getD_mem {l : List Rgb} {i : ℕ} (h : i < l.length) (d : Rgb) :
    l.getD i d ∈ l := by
  rw [List.getD_eq_getElem l d h]
  exact List.getElem_mem h

/-- The sorted list is sorted by luminance. -/
lemma sortByLum_sorted (l : List Rgb) : List.Sorted lumLE (sortByLum l) :=
  List.sorted_insertionSort lumLE l

/-- Monotonicity of luminance along sorted-list indices. -/
lemma sorted_getD_le (l : List Rgb) (hs : List.Sorted lumLE l) {i j : ℕ}
    (hij : i ≤ j) (hj : j < l.length) (d : Rgb) :
    luminance (l.getD i d) ≤ luminance (l.getD j d) := by
  rcases Nat.lt_or_ge i j with hlt | hge
  · rw [List.getD_eq_getElem l d (lt_trans hlt hj), List.getD_eq_getElem l d hj]
    exact List.pairwise_iff_getElem.mp hs i j (lt_trans hlt hj) hj hlt
  · have : i = j := le_antisymm hij hge
    subst this
    exact le_refl _

/-- C1: for any five in-range centroids, as delivered by the clusterer for an
image with at least five distinct pixel colors, the palette has exactly the
eleven keys (background, foreground, foreground-alt, shade8 down to shade1, in
insertion order) and every value is a hash sign followed by exactly six
lowercase hexadecimal digits. -/
theorem extract_colors_keys_hex (centers : List Rgb) (hlen : centers.length = 5)
    (hrange : ∀ c ∈ centers, inRange c) :
    (extract_colors centers).map Prod.fst =
      ["background", "foreground", "foreground-alt", "shade8", "shade7", "shade6",
        "shade5", "shade4", "shade3", "shade2", "shade1"] ∧
    ∀ kv ∈ extract_colors centers, isHexColorString kv.2 = true := by
  have hsl : (sortByLum centers).length = 5 := by rw [length_sortByLum, hlen]
  constructor
  · with_unfolding_all rfl
  · intro kv hkv
    have m0 : (sortByLum centers).getD 0 rgbZero ∈ centers :=
      mem_sortByLum (getD_mem (by omega) _)
    have m1 : (sortByLum centers).getD 1 rgbZero ∈ centers :=
      mem_sortByLum (getD_mem (by omega) _)
    have mL1 : (sortByLum centers).getD ((sortByLum centers).length - 1) rgbZero ∈ centers :=
      mem_sortByLum (getD_mem (by omega) _)
    have mL2 : (sortByLum centers).getD ((sortByLum centers).length - 2) rgbZero ∈ centers :=
      mem_sortByLum (getD_mem (by omega) _)
    rw [extract_colors_eq] at hkv
    simp only [List.mem_cons, List.not_mem_nil, or_false] at hkv
    rcases hkv with h | h | h | h | h | h | h | h | h | h | h
    · subst h; exact isHexColorString_hexOfCentroid _ (hrange _ m0)
    · subst h; exact isHexColorString_hexOfCentroid _ (hrange _ mL1)
    · subst h; exact isHexColorString_hexOfCentroid _ (hrange _ mL2)
    · subst h; exact isHexColorString_hexOfShade _ _ (hrange _ m1)
    · subst h; exact isHexColorString_hexOfShade _ _ (hrange _ m1)
    · subst h; exact isHexColorString_hexOfShade _ _ (hrange _ m1)
    · subst h; exact isHexColorString_hexOfShade _ _ (hrange _ m1)
    · subst h; exact isHexColorString_hexOfShade _ _ (hrange _ m1)
    · subst h; exact isHexColorString_hexOfShade _ _ (hrange _ m1)
    · subst h; exact isHexColorString_hexOfShade _ _ (hrange _ m1)
    · subst h; exact isHexColorString_hexOfShade _ _ (hrange _ m1)

/-- Witness for C1 at the five synthetic centroids. -/
theorem extract_colors_keys_hex_witness :
    (specCentroids.length = 5 ∧ ∀ c ∈ specCentroids, inRange c) ∧
    ((extract_colors specCentroids).map Prod.fst =
      ["background", "foreground", "foreground-alt", "shade8", "shade7", "shade6",
        "shade5", "shade4", "shade3", "shade2", "shade1"] ∧
    ∀ kv ∈ extract_colors specCentroids, isHexColorString kv.2 = true) :=
  ⟨⟨rfl, by intro c hc; fin_cases hc <;> norm_num [inRange]⟩,
    extract_colors_keys_hex specCentroids rfl
      (by intro c hc; fin_cases hc <;> norm_num [inRange])⟩

/-- C5: the palette roles come from the luminance-ascending sort of the five
centroids: background is the sorted index 0, foreground the sorted index 4,
foreground-alt the sorted index 3, and therefore the BT.709 luminance of the
background centroid is at most that of the foreground-alt centroid, which is at
most that of the foreground centroid. -/
theorem luminance_role_ordering (centers : List Rgb) (hlen : centers.length = 5) :
    (extract_colors centers).lookup "background" =
      some (hexOfCentroid ((sortByLum centers).getD 0 rgbZero)) ∧
    (extract_colors centers).lookup "foreground" =
      some (hexOfCentroid ((sortByLum centers).getD 4 rgbZero)) ∧
    (extract_colors centers).lookup "foreground-alt" =
      some (hexOfCentroid ((sortByLum centers).getD 3 rgbZero)) ∧
    luminance ((sortByLum centers).getD 0 rgbZero) ≤
      luminance ((sortByLum centers).getD 3 rgbZero) ∧
    luminance ((sortByLum centers).getD 3 rgbZero) ≤
      luminance ((sortByLum centers).getD 4 rgbZero) := by
  have hsl : (sortByLum centers).length = 5 := by rw [length_sortByLum, hlen]
  have e1 : (extract_colors centers).lookup "foreground" =
      some (hexOfCentroid ((sortByLum centers).getD ((sortByLum centers).length - 1) rgbZero)) := by
    with_unfolding_all rfl
  have e2 : (extract_colors centers).lookup "foreground-alt" =
      some (hexOfCentroid ((sortByLum centers).getD ((sortByLum centers).length - 2) rgbZero)) := by
    with_unfolding_all rfl
  have i1 : (sortByLum centers).length - 1 = 4 := by omega
  have i2 : (sortByLum centers).length - 2 = 3 := by omega
  rw [i1] at e1
  rw [i2] at e2
  exact ⟨by with_unfolding_all rfl, e1, e2,
    sorted_getD_le _ (sortByLum_sorted centers) (by omega) (by omega) _,
    sorted_getD_le _ (sortByLum_sorted centers) (by omega) (by omega) _⟩

/-- Witness for C5 at the five synthetic centroids. -/
theorem luminance_role_ordering_witness :
    specCentroids.length = 5 ∧
    ((extract_colors specCentroids).lookup "background" =
      some (hexOfCentroid ((sortByLum specCentroids).getD 0 rgbZero)) ∧
    (extract_colors specCentroids).lookup "foreground" =
      some (hexOfCentroid ((sortByLum specCentroids).getD 4 rgbZero)) ∧
    (extract_colors specCentroids).lookup "foreground-alt" =
      some (hexOfCentroid ((sortByLum specCentroids).getD 3 rgbZero)) ∧
    luminance ((sortByLum specCentroids).getD 0 rgbZero) ≤
      luminance ((sortByLum specCentroids).getD 3 rgbZero) ∧
    luminance ((sortByLum specCentroids).getD 3 rgbZero) ≤
      luminance ((sortByLum specCentroids).getD 4 rgbZero)) :=
  ⟨rfl, luminance_role_ordering specCentroids rfl⟩

/-- C8: both serializers return silently on an empty palette: no file is
written and no error is raised. -/
theorem serializers_skip_empty_palette (ini_path rasi_path : String) :
    save_palette_to_ini [] ini_path = SaveResult.skipped ∧
    save_palette_to_rasi [] rasi_path = SaveResult.skipped :=
  ⟨rfl, rfl⟩

/-- C7: when the image path does not exist, the CLI run exits with status 1
after printing the not-found message, creates no directory, and writes no
output files, whatever the extractor would have produced. -/
theorem main_missing_file (image_path output_dir : String)
    (extractor : String → List (String × String)) :
    main false image_path output_dir extractor =
      { exitCode := some 1
        printed := ["Error: Image file '" ++ image_path ++ "' not found"]
        dirCreated := none
        filesWritten := [] } := rfl

/-- C2: for every centroid list, the eight shades are the schedule factors
0.5, 0.75, 1, 1.25, 1.5, 1.75, 2, 2.5 applied in that order to the index-1
(second-darkest) entry of the luminance-sorted centroids, and they are stored
under inverted key numbering: factor 0.5 under shade8 down to factor 2.5 under
shade1. -/
theorem shade_schedule_inversion (centers : List Rgb) :
    (extract_colors centers).lookup "shade8" =
      some (hexOfShade (tweak_saturation ((sortByLum centers).getD 1 rgbZero) 0.5)) ∧
    (extract_colors centers).lookup "shade7" =
      some (hexOfShade (tweak_saturation ((sortByLum centers).getD 1 rgbZero) 0.75)) ∧
    (extract_colors centers).lookup "shade6" =
      some (hexOfShade (tweak_saturation ((sortByLum centers).getD 1 rgbZero) 1)) ∧
    (extract_colors centers).lookup "shade5" =
      some (hexOfShade (tweak_saturation ((sortByLum centers).getD 1 rgbZero) 1.25)) ∧
    (extract_colors centers).lookup "shade4" =
      some (hexOfShade (tweak_saturation ((sortByLum centers).getD 1 rgbZero) 1.5)) ∧
    (extract_colors centers).lookup "shade3" =
      some (hexOfShade (tweak_saturation ((sortByLum centers).getD 1 rgbZero) 1.75)) ∧
    (extract_colors centers).lookup "shade2" =
      some (hexOfShade (tweak_saturation ((sortByLum centers).getD 1 rgbZero) 2)) ∧
    (extract_colors centers).lookup "shade1" =
      some (hexOfShade (tweak_saturation ((sortByLum centers).getD 1 rgbZero) 2.5)) := by
  refine ⟨?_, ?_, ?_, ?_, ?_, ?_, ?_, ?_⟩ <;> with_unfolding_all rfl

/-- Python int() of an embedded natural number. -/
lemma pyInt_natCast (n : ℕ) : pyInt ((n : ℚ)) = (n : ℤ) := by
  simp [pyInt]

/-- C6: on the five synthetic singleton-cluster centroids, the composed palette
has background black, foreground-alt the 245-gray, and foreground white. -/
theorem synthetic_palette_roles :
    (extract_colors specCentroids).lookup "background" = some "#000000" ∧
    (extract_colors specCentroids).lookup "foreground-alt" = some "#f5f5f5" ∧
    (extract_colors specCentroids).lookup "foreground" = some "#ffffff" := by
  have hsort : sortByLum specCentroids =
      [((0 : ℚ), (0 : ℚ), (0 : ℚ)), ((10 : ℚ), (10 : ℚ), (10 : ℚ)),
        ((128 : ℚ), (128 : ℚ), (128 : ℚ)), ((245 : ℚ), (245 : ℚ), (245 : ℚ)),
        ((255 : ℚ), (255 : ℚ), (255 : ℚ))] := by
    norm_num [sortByLum, specCentroids, List.insertionSort, List.orderedInsert, lumLE, luminance]
  have g0 : (sortByLum specCentroids).getD 0 rgbZero = ((0 : ℚ), (0 : ℚ), (0 : ℚ)) := by
    rw [hsort]
    with_unfolding_all rfl
  have g4 : (sortByLum specCentroids).getD ((sortByLum specCentroids).length - 1) rgbZero =
      ((255 : ℚ), (255 : ℚ), (255 : ℚ)) := by
    rw [hsort]
    with_unfolding_all rfl
  have g3 : (sortByLum specCentroids).getD ((sortByLum specCentroids).length - 2) rgbZero =
      ((245 : ℚ), (245 : ℚ), (245 : ℚ)) := by
    rw [hsort]
    with_unfolding_all rfl
  have hbg : hexOfCentroid ((0 : ℚ), (0 : ℚ), (0 : ℚ)) = "#000000" := by
    simp only [hexOfCentroid]
    norm_num [pyInt]
    decide
  have hfa : hexOfCentroid ((245 : ℚ), (245 : ℚ), (245 : ℚ)) = "#f5f5f5" := by
    simp only [hexOfCentroid]
    norm_num [pyInt]
    decide
  have hfg : hexOfCentroid ((255 : ℚ), (255 : ℚ), (255 : ℚ)) = "#ffffff" := by
    simp only [hexOfCentroid]
    norm_num [pyInt]
    decide
  have e1 : (extract_colors specCentroids).lookup "background" =
      some (hexOfCentroid ((sortByLum specCentroids).getD 0 rgbZero)) := by
    with_unfolding_all rfl
  have e2 : (extract_colors specCentroids).lookup "foreground" =
      some (hexOfCentroid ((sortByLum specCentroids).getD
        ((sortByLum specCentroids).length - 1) rgbZero)) := by
    with_unfolding_all rfl
  have e3 : (extract_colors specCentroids).lookup "foreground-alt" =
      some (hexOfCentroid ((sortByLum specCentroids).getD
        ((sortByLum specCentroids).length - 2) rgbZero)) := by
    with_unfolding_all rfl
  rw [e1, e2, e3, g0, g4, g3, hbg, hfa, hfg]
  exact ⟨rfl, rfl, rfl⟩

/-- C3 counterexample: at a darkest centroid with channels 0.9 the code stores
the truncated byte 0 giving hash 000000, while rounding each channel to the
nearest integer as the claim states would give 1, i.e. hash 010101. -/
theorem channel_rounding_counterexample :
    (extract_colors fracCentroids).lookup "background" = some "#000000" ∧
    round (0.9 : ℚ) = 1 ∧
    hexColor (round (0.9 : ℚ)).toNat (round (0.9 : ℚ)).toNat (round (0.9 : ℚ)).toNat =
      "#010101" ∧
    ("#000000" : String) ≠ "#010101" := by
  have hround : round (0.9 : ℚ) = 1 := by
    rw [round_eq]
    norm_num
  have hsort : sortByLum fracCentroids =
      [((0.9 : ℚ), (0.9 : ℚ), (0.9 : ℚ)), ((10 : ℚ), (10 : ℚ), (10 : ℚ)),
        ((128 : ℚ), (128 : ℚ), (128 : ℚ)), ((245 : ℚ), (245 : ℚ), (245 : ℚ)),
        ((255 : ℚ), (255 : ℚ), (255 : ℚ))] := by
    norm_num [sortByLum, fracCentroids, List.insertionSort, List.orderedInsert, lumLE, luminance]
  have g0 : (sortByLum fracCentroids).getD 0 rgbZero = ((0.9 : ℚ), (0.9 : ℚ), (0.9 : ℚ)) := by
    rw [hsort]
    with_unfolding_all rfl
  have hfloor : (⌊(0.9 : ℚ)⌋ : ℤ) = 0 := by
    rw [Int.floor_eq_iff]
    norm_num
  have hbg : hexOfCentroid ((0.9 : ℚ), (0.9 : ℚ), (0.9 : ℚ)) = "#000000" := by
    simp only [hexOfCentroid]
    norm_num [pyInt, hfloor]
    decide
  have e1 : (extract_colors fracCentroids).lookup "background" =
      some (hexOfCentroid ((sortByLum fracCentroids).getD 0 rgbZero)) := by
    with_unfolding_all rfl
  rw [e1, g0, hbg]
  refine ⟨rfl, hround, ?_, by decide⟩
  rw [hround]
  decide

/-- C3 amended: each channel is converted with Python int(), i.e. truncated
toward zero (the floor, on these nonnegative values), not rounded to nearest;
no clamping is applied, and for in-range centroids the truncated values already
lie in the byte range before being formatted as two lowercase hex digits. -/
theorem channel_encoding_truncates (centers : List Rgb) (hlen : centers.length = 5)
    (hrange : ∀ c ∈ centers, inRange c) :
    ((extract_colors centers).lookup "background" =
      some (hexColor (⌊((sortByLum centers).getD 0 rgbZero).1⌋.toNat)
        (⌊((sortByLum centers).getD 0 rgbZero).2.1⌋.toNat)
        (⌊((sortByLum centers).getD 0 rgbZero).2.2⌋.toNat)) ∧
      ⌊((sortByLum centers).getD 0 rgbZero).1⌋.toNat ≤ 255 ∧
      ⌊((sortByLum centers).getD 0 rgbZero).2.1⌋.toNat ≤ 255 ∧
      ⌊((sortByLum centers).getD 0 rgbZero).2.2⌋.toNat ≤ 255) ∧
    (∀ q : ℚ, 0 ≤ q → pyInt q = ⌊q⌋) := by
  have hsl : (sortByLum centers).length = 5 := by rw [length_sortByLum, hlen]
  have m0 : (sortByLum centers).getD 0 rgbZero ∈ centers :=
    mem_sortByLum (getD_mem (by omega) _)
  obtain ⟨h1, h2, h3, h4, h5, h6⟩ := hrange _ m0
  have b1 := pyInt_bounds _ h1 h2
  have b2 := pyInt_bounds _ h3 h4
  have b3 := pyInt_bounds _ h5 h6
  have hp1 : pyInt ((sortByLum centers).getD 0 rgbZero).1 =
      ⌊((sortByLum centers).getD 0 rgbZero).1⌋ := by
    simp only [pyInt]
    rw [if_pos h1]
  have hp2 : pyInt ((sortByLum centers).getD 0 rgbZero).2.1 =
      ⌊((sortByLum centers).getD 0 rgbZero).2.1⌋ := by
    simp only [pyInt]
    rw [if_pos h3]
  have hp3 : pyInt ((sortByLum centers).getD 0 rgbZero).2.2 =
      ⌊((sortByLum centers).getD 0 rgbZero).2.2⌋ := by
    simp only [pyInt]
    rw [if_pos h5]
  refine ⟨⟨?_, ?_, ?_, ?_⟩, fun q hq => by simp only [pyInt]; rw [if_pos hq]⟩
  · have ebg : (extract_colors centers).lookup "background" =
        some (hexOfCentroid ((sortByLum centers).getD 0 rgbZero)) := by
      with_unfolding_all rfl
    rw [ebg, hexOfCentroid, hp1, hp2, hp3]
  · rw [hp1] at b1; omega
  · rw [hp2] at b2; omega
  · rw [hp3] at b3; omega

/-- Witness for the amended C3 at the five synthetic centroids. -/
theorem channel_encoding_truncates_witness :
    (specCentroids.length = 5 ∧ ∀ c ∈ specCentroids, inRange c) ∧
    (((extract_colors specCentroids).lookup "background" =
      some (hexColor (⌊((sortByLum specCentroids).getD 0 rgbZero).1⌋.toNat)
        (⌊((sortByLum specCentroids).getD 0 rgbZero).2.1⌋.toNat)
        (⌊((sortByLum specCentroids).getD 0 rgbZero).2.2⌋.toNat)) ∧
      ⌊((sortByLum specCentroids).getD 0 rgbZero).1⌋.toNat ≤ 255 ∧
      ⌊((sortByLum specCentroids).getD 0 rgbZero).2.1⌋.toNat ≤ 255 ∧
      ⌊((sortByLum specCentroids).getD 0 rgbZero).2.2⌋.toNat ≤ 255) ∧
    (∀ q : ℚ, 0 ≤ q → pyInt q = ⌊q⌋)) :=
  ⟨⟨rfl, by intro c hc; fin_cases hc <;> norm_num [inRange]⟩,
    channel_encoding_truncates specCentroids rfl
      (by intro c hc; fin_cases hc <;> norm_num [inRange])⟩

/-- C4 counterexample: the pixel sequence of a solid-color 4 by 4 image has 16
pixels and a single distinct color, yet it passes the clustering input
validation (no error is raised), and with the five resulting duplicate
centroids extract_colors still composes a full 11-entry palette instead of
aborting. -/
theorem clustering_no_error_on_solid_image :
    solidPixels.length = 16 ∧
    distinctColors solidPixels = 1 ∧
    kmeans_fit_check solidPixels 5 = Except.ok () ∧
    ((extract_colors (List.replicate 5 solidColor)).map Prod.fst).length = 11 := by
  refine ⟨rfl, ?_, rfl, ?_⟩
  · decide
  · with_unfolding_all rfl

/-- C4 amended: the clustering call succeeds exactly when the image has at
least five pixels in total; the number of distinct colors plays no role, so a
solid image with at least five pixels is clustered without error and a palette
is produced. -/
theorem clustering_ok_iff_five_pixels (pixels : List Rgb) :
    kmeans_fit_check pixels 5 = Except.ok () ↔ 5 ≤ pixels.length := by
  constructor
  · intro hok
    by_contra hlt
    rw [kmeans_fit_check, if_pos (by omega : pixels.length < 5)] at hok
    exact Except.noConfusion hok
  · intro hge
    rw [kmeans_fit_check, if_neg (by omega : ¬pixels.length < 5)]

/-- Witness for the amended C4 at the solid sixteen-pixel sequence. -/
theorem clustering_ok_iff_five_pixels_witness :
    (kmeans_fit_check solidPixels 5 = Except.ok () ↔ 5 ≤ solidPixels.length) ∧
    kmeans_fit_check solidPixels 5 = Except.ok () ∧ 5 ≤ solidPixels.length :=
  ⟨clustering_ok_iff_five_pixels solidPixels, rfl, by decide⟩

/-- C9: a nonempty palette missing any one of the eleven required keys makes
the INI writer raise a KeyError before the output file is opened, so nothing is
written; the theme-markup writer, in contrast, substitutes black for an absent
shade key and still writes its file when the two role keys are present. -/
theorem ini_missing_key_aborts (p : List (String × String)) (path : String)
    (hne : p ≠ []) (k : String) (hk : k ∈ requiredIniKeys)
    (hmiss : p.lookup k = none) :
    (∃ k2 ∈ requiredIniKeys, save_palette_to_ini p path = SaveResult.keyError k2) ∧
    (∀ path2 content, save_palette_to_ini p path ≠ SaveResult.wrote path2 content) ∧
    (∀ path2 bg fg, p.lookup "background" = some bg → p.lookup "foreground" = some fg →
      p.lookup "shade1" = none →
      save_palette_to_rasi p path2 =
        SaveResult.wrote path2 (rasi_content bg "#000000"
          ((p.lookup "shade2").getD "#000000") ((p.lookup "shade3").getD "#000000")
          ((p.lookup "shade4").getD "#000000") fg)) := by
  have hres : ∃ k2 ∈ requiredIniKeys, save_palette_to_ini p path = SaveResult.keyError k2 := by
    rcases h1 : p.lookup "background" with _ | v1
    · exact ⟨"background", by decide, by simp [save_palette_to_ini, if_neg hne, req, h1]⟩
    rcases h2 : p.lookup "foreground" with _ | v2
    · exact ⟨"foreground", by decide, by simp [save_palette_to_ini, if_neg hne, req, h1, h2]⟩
    rcases h3 : p.lookup "foreground-alt" with _ | v3
    · exact ⟨"foreground-alt", by decide,
        by simp [save_palette_to_ini, if_neg hne, req, h1, h2, h3]⟩
    rcases h4 : p.lookup "shade1" with _ | v4
    · exact ⟨"shade1", by decide,
        by simp [save_palette_to_ini, if_neg hne, req, h1, h2, h3, h4]⟩
    rcases h5 : p.lookup "shade2" with _ | v5
    · exact ⟨"shade2", by decide,
        by simp [save_palette_to_ini, if_neg hne, req, h1, h2, h3, h4, h5]⟩
    rcases h6 : p.lookup "shade3" with _ | v6
    · exact ⟨"shade3", by decide,
        by simp [save_palette_to_ini, if_neg hne, req, h1, h2, h3, h4, h5, h6]⟩
    rcases h7 : p.lookup "shade4" with _ | v7
    · exact ⟨"shade4", by decide,
        by simp [save_palette_to_ini, if_neg hne, req, h1, h2, h3, h4, h5, h6, h7]⟩
    rcases h8 : p.lookup "shade5" with _ | v8
    · exact ⟨"shade5", by decide,
        by simp [save_palette_to_ini, if_neg hne, req, h1, h2, h3, h4, h5, h6, h7, h8]⟩
    rcases h9 : p.lookup "shade6" with _ | v9
    · exact ⟨"shade6", by decide,
        by simp [save_palette_to_ini, if_neg hne, req, h1, h2, h3, h4, h5, h6, h7, h8, h9]⟩
    rcases h10 : p.lookup "shade7" with _ | v10
    · exact ⟨"shade7", by decide,
        by simp [save_palette_to_ini, if_neg hne, req, h1, h2, h3, h4, h5, h6, h7, h8, h9, h10]⟩
    rcases h11 : p.lookup "shade8" with _ | v11
    · exact ⟨"shade8", by decide,
        by simp [save_palette_to_ini, if_neg hne, req, h1, h2, h3, h4, h5, h6, h7, h8, h9,
          h10, h11]⟩
    exfalso
    fin_cases hk <;> simp_all
  refine ⟨hres, ?_, ?_⟩
  · intro path2 content hcontra
    obtain ⟨k2, _, hkE⟩ := hres
    rw [hkE] at hcontra
    exact SaveResult.noConfusion hcontra
  · intro path2 bg fg hbg hfg hs1
    simp [save_palette_to_rasi, if_neg hne, hbg, hfg, hs1]

/-- Witness for C9 at a palette holding only the two role keys. -/
theorem ini_missing_key_aborts_witness :
    (rolesOnlyPalette ≠ [] ∧ "shade1" ∈ requiredIniKeys ∧
      rolesOnlyPalette.lookup "shade1" = none) ∧
    ((∃ k2 ∈ requiredIniKeys,
        save_palette_to_ini rolesOnlyPalette "out.ini" = SaveResult.keyError k2) ∧
      (∀ path2 content,
        save_palette_to_ini rolesOnlyPalette "out.ini" ≠ SaveResult.wrote path2 content) ∧
      (∀ path2 bg fg, rolesOnlyPalette.lookup "background" = some bg →
        rolesOnlyPalette.lookup "foreground" = some fg →
        rolesOnlyPalette.lookup "shade1" = none →
        save_palette_to_rasi rolesOnlyPalette path2 =
          SaveResult.wrote path2 (rasi_content bg "#000000"
            ((rolesOnlyPalette.lookup "shade2").getD "#000000")
            ((rolesOnlyPalette.lookup "shade3").getD "#000000")
            ((rolesOnlyPalette.lookup "shade4").getD "#000000") fg))) :=
  ⟨⟨by decide, by decide, by decide⟩,
    ini_missing_key_aborts rolesOnlyPalette "out.ini" (by decide) "shade1" (by decide) (by decide)⟩

end Palettegen
